import Mathlib

/-!
Verification of the catalog search service in `app/catalog.py` (with data
model from `app/models.py` and the seeding script `scripts/seed_elasticsearch.py`).

Conventions of the shallow embedding:
* Python `str` is Lean `String`; `str.lower()` maps characters through
  `Char.toLower`, `str.split()` splits on whitespace runs, and
  `str.strip(",.?!")` drops the listed characters from both ends.
* Python floats are modelled as exact rationals `ℚ`; `round(x, 4)` is
  rounding `x·10⁴` to the nearest integer (Mathlib `round`) divided by `10⁴`.
* Python `int` is `ℤ`, sizes and list lengths are `ℕ`.
* Python sets of strings are `Finset String`.
* The Elasticsearch client is external: the outcome of a remote call
  (a hit list, or a raised exception) is passed to `search` as an explicit
  `RemoteOutcome` argument, and the connection outcome to `initialize`
  as a `Bool`.
* `list.sort(key=score, reverse=True)` is the stable `List.mergeSort` with
  the boolean relation `scoreDescLe` (`b.score ≤ a.score`).
-/

/-- `s.lower()` (ASCII-adequate model), character by character. -/
def pyLower (s : String) : String := ⟨s.data.map Char.toLower⟩

/-- Accumulator pass behind `pySplit`: cut at whitespace runs. -/
def splitWsAux : List Char → List Char → List (List Char)
  | [], acc => if acc = [] then [] else [acc.reverse]
  | c :: rest, acc =>
      if c.isWhitespace then
        (if acc = [] then splitWsAux rest [] else acc.reverse :: splitWsAux rest [])
      else splitWsAux rest (c :: acc)

/-- `s.split()` — split on whitespace runs, dropping empty pieces. -/
def pySplit (s : String) : List String := (splitWsAux s.data []).map String.mk

/-- Single-space join behind `pyJoinSpace`. -/
def joinSpaceAux : List (List Char) → List Char
  | [] => []
  | [x] => x
  | x :: y :: rest => x ++ ' ' :: joinSpaceAux (y :: rest)

/-- `" ".join(l)`. -/
def pyJoinSpace (l : List String) : String := ⟨joinSpaceAux (l.map String.data)⟩

/-- The characters of the Python literal `",.?!"` used with `str.strip`. -/
def stripChars : List Char := [',', '.', '?', '!']

/-- `token.strip(",.?!")` — remove leading and trailing `, . ? !`. -/
def pyStrip (s : String) : String :=
  ⟨((s.data.dropWhile (· ∈ stripChars)).reverse.dropWhile (· ∈ stripChars)).reverse⟩

/-- Python's substring test `needle in haystack`. -/
def pySubstr (needle haystack : String) : Bool :=
  decide (needle.data <:+: haystack.data)

/-- `max` over a nonempty Python iterable, given as head and tail. -/
def pyMaxList (x : ℚ) (xs : List ℚ) : ℚ := xs.foldl max x

/-- Python `x or d` for an optional float `x`: `None` and `0.0` give `d`. -/
def pyOr (s : Option ℚ) (d : ℚ) : ℚ :=
  match s with
  | none => d
  | some x => if x = 0 then d else x

/-- `round(x, 4)` — round to 4 decimal places. -/
def round4 (x : ℚ) : ℚ := (round (x * 10000) : ℚ) / 10000

/-- Fixed-point decimal rendering used for the `:.2f` format directives of
`_build_reason` (presentational only; no claim inspects its output). -/
def fmtFixed (prec : Nat) (x : ℚ) : String :=
  let scaled : ℤ := round (x * ((10 : ℚ) ^ prec))
  let sign := if scaled < 0 then "-" else ""
  let n := scaled.natAbs
  let ip := n / 10 ^ prec
  let fp := n % 10 ^ prec
  let fpStr := toString fp
  sign ++ toString ip ++ "." ++ String.mk (List.replicate (prec - fpStr.length) '0') ++ fpStr

/-- `sort_preference` values of `QueryIntent` (`app/models.py`). -/
inductive SortPreference
  | relevance
  | price_low
  | stock_high
deriving DecidableEq, Repr

/-- `QueryIntent` from `app/models.py`. -/
structure QueryIntent where
  keywords : String
  limit : Nat
  in_stock_only : Bool
  min_quantity : Option Int
  max_unit_price : Option ℚ
  sort_preference : SortPreference
deriving DecidableEq, Repr

/-- A catalog document as produced by `scripts/generate_mock_catalog.py`
and consumed by `app/catalog.py`.  `key_specs` is an insertion-ordered
key/value map (Python `dict`). -/
structure ProductDoc where
  id : String
  manufacturer : String
  manufacturer_part_number : String
  name : String
  description : String
  category : String
  unit_price : ℚ
  quantity_available : Int
  tags : List String
  use_cases : List String
  key_specs : List (String × String)
  product_url : String
  datasheet_url : String
deriving DecidableEq, Repr

/-- `ProductResult` from `app/models.py`. -/
structure ProductResult where
  id : String
  manufacturer : String
  manufacturer_part_number : String
  name : String
  description : String
  category : String
  unit_price : ℚ
  quantity_available : Int
  product_url : String
  datasheet_url : String
  recommendation_score : ℚ
  fit_reason : String
deriving DecidableEq, Repr

/-- Stop words of `CatalogService._fallback_search` (catalog.py lines 254-269). -/
def fallbackStopWords : List String :=
  ["find", "need", "with", "that", "this", "for", "the", "and", "top", "best",
   "under", "cheapest", "stock", "in-stock"]

/-- Stop words of `_keyword_coverage` (catalog.py lines 396-410). -/
def coverageStopWords : List String :=
  ["find", "need", "with", "that", "this", "for", "the", "and", "top", "best",
   "under", "in", "stock"]

/-- The significant-token set
`{token.strip(",.?!") for token in query.lower().split()
   if len(token) > 2 and token.strip(",.?!") not in stop_words}`
shared (up to the stop-word list) by `_fallback_search` and `_keyword_coverage`. -/
def significantTokens (stopWords : List String) (query : String) : Finset String :=
  (((pySplit (pyLower query)).filter
      (fun t => 2 < t.length && !(decide (pyStrip t ∈ stopWords)))).map pyStrip).toFinset

/-- The lowercased haystack joining manufacturer, part number, name,
description, tags and use-cases — identical in `_fallback_search`
(lines 278-287) and `_keyword_coverage` (lines 419-428). -/
def searchHaystack (doc : ProductDoc) : String :=
  pyLower (pyJoinSpace
    [doc.manufacturer, doc.manufacturer_part_number, doc.name, doc.description,
     pyJoinSpace doc.tags, pyJoinSpace doc.use_cases])

/-- `_keyword_coverage` (catalog.py lines 395-431). -/
def _keyword_coverage (query : String) (doc : ProductDoc) : ℚ :=
  let query_tokens := significantTokens coverageStopWords query
  if query_tokens = ∅ then 0
  else
    ((query_tokens.filter (fun t => pySubstr t (searchHaystack doc) = true)).card : ℚ) /
      (query_tokens.card : ℚ)

/-- `_recommendation_score` (catalog.py lines 359-367). -/
def _recommendation_score (raw_score top_score : ℚ) (doc : ProductDoc) (coverage : ℚ) : ℚ :=
  let relevance := raw_score / max top_score 0.0001
  let stock := min ((doc.quantity_available : ℚ) / 10000) 1
  let price := doc.unit_price
  let price_score := 1 / (1 + max price 0)
  round4 (0.78 * relevance + 0.15 * coverage + 0.05 * stock + 0.02 * price_score)

/-- `_build_reason` (catalog.py lines 380-384). -/
def _build_reason (doc : ProductDoc) (recommendation_score coverage : ℚ) : String :=
  "Score " ++ fmtFixed 2 recommendation_score ++ " with keyword coverage " ++
    fmtFixed 2 coverage ++ ", stock (" ++ toString doc.quantity_available ++
    " pcs), and price ($" ++ fmtFixed 2 doc.unit_price ++ ")."

/-- `_spec_blob_from_doc` (catalog.py lines 340-344), on a well-typed document
(whose `key_specs` is a dict): `" ".join(f"{key} {value}" ...)`. -/
def _spec_blob_from_doc (doc : ProductDoc) : String :=
  pyJoinSpace (doc.key_specs.map (fun kv => kv.1 ++ " " ++ kv.2))

/-- `spec_blob` (scripts/seed_elasticsearch.py lines 183-187) — the seeding
script's own copy of the flattener. -/
def spec_blob (doc : ProductDoc) : String :=
  pyJoinSpace (doc.key_specs.map (fun kv => kv.1 ++ " " ++ kv.2))

/-- Result relation used by `results.sort(key=lambda r: r.recommendation_score,
reverse=True)`: `a` may come before `b` iff `b`'s score is at most `a`'s. -/
def scoreDescLe (a b : ProductResult) : Bool :=
  decide (b.recommendation_score ≤ a.recommendation_score)

/-- Build the `ProductResult` appended for a hit document, shared verbatim by
both search paths (catalog.py lines 225-240 and 302-317). -/
def mkProductResult (doc : ProductDoc) (recommendation_score coverage : ℚ) : ProductResult :=
  { id := doc.id
    manufacturer := doc.manufacturer
    manufacturer_part_number := doc.manufacturer_part_number
    name := doc.name
    description := doc.description
    category := doc.category
    unit_price := doc.unit_price
    quantity_available := doc.quantity_available
    product_url := doc.product_url
    datasheet_url := doc.datasheet_url
    recommendation_score := recommendation_score
    fit_reason := _build_reason doc recommendation_score coverage }

/-- One Elasticsearch hit: its engine score (`_score`, possibly null) and its
document (`_source`). -/
structure EsHit where
  score : Option ℚ
  source : ProductDoc
deriving DecidableEq, Repr

/-- `top_score = max((hit.get("_score") or 1.0) for hit in hits)`
(catalog.py line 216); the `[]` case is unreachable behind the zero-hit
early return. -/
def esTopScore : List EsHit → ℚ
  | [] => 1
  | h :: t => pyMaxList (pyOr h.score 1) (t.map (fun x => pyOr x.score 1))

/-- Body of the per-hit loop of `_search_elasticsearch`
(catalog.py lines 219-240). -/
def mapEsHit (intent : QueryIntent) (top_score : ℚ) (hit : EsHit) : ProductResult :=
  let doc := hit.source
  let score := pyOr hit.score 0
  let coverage := _keyword_coverage intent.keywords doc
  let recommendation_score := _recommendation_score score top_score doc coverage
  mkProductResult doc recommendation_score coverage

/-- Post-call part of `_search_elasticsearch` (catalog.py lines 212-243): the
query construction (lines 173-210) only determines which `hits` the remote
engine returns, so the hit list is the explicit input here. -/
def _search_elasticsearch (intent : QueryIntent) (hits : List EsHit) : List ProductResult :=
  if hits = [] then []
  else
    (hits.map (mapEsHit intent (esTopScore hits))).mergeSort scoreDescLe

/-- `match_score = sum(token in haystack for token in query_tokens)`
(catalog.py line 289). -/
def fallbackMatchScore (query_tokens : Finset String) (doc : ProductDoc) : Nat :=
  (query_tokens.filter (fun t => pySubstr t (searchHaystack doc) = true)).card

/-- The chain of `continue` guards of the `_fallback_search` loop
(catalog.py lines 290-298): `true` iff the document survives all filters. -/
def fallbackKeep (intent : QueryIntent) (query_tokens : Finset String) (doc : ProductDoc) : Bool :=
  !(decide (query_tokens ≠ ∅) && decide (fallbackMatchScore query_tokens doc = 0)) &&
  !(intent.in_stock_only && decide (doc.quantity_available ≤ 0)) &&
  !(match intent.min_quantity with
    | none => false
    | some m => decide (doc.quantity_available < m)) &&
  !(match intent.max_unit_price with
    | none => false
    | some p => decide (p < doc.unit_price))

/-- The `ProductResult` built for a surviving fallback document
(catalog.py lines 300-317): `raw = top = 1.0`. -/
def fallbackResult (intent : QueryIntent) (doc : ProductDoc) : ProductResult :=
  let coverage := _keyword_coverage intent.keywords doc
  let recommendation_score := _recommendation_score 1 1 doc coverage
  mkProductResult doc recommendation_score coverage

/-- `_fallback_search` (catalog.py lines 253-320), over the service's
preloaded fallback documents. -/
def _fallback_search (docs : List ProductDoc) (intent : QueryIntent) : List ProductResult :=
  let query_tokens := significantTokens fallbackStopWords intent.keywords
  let results := (docs.filter (fallbackKeep intent query_tokens)).map (fallbackResult intent)
  (results.mergeSort scoreDescLe).take intent.limit

/-- Mutable state of a `CatalogService`: `_mode`, whether `_client` is set,
and `_fallback_docs`. -/
structure CatalogService where
  _mode : String
  hasClient : Bool
  _fallback_docs : List ProductDoc
deriving DecidableEq, Repr

/-- The `mode` property (catalog.py lines 45-47). -/
def CatalogService.mode (svc : CatalogService) : String := svc._mode

/-- `CatalogService.__init__` (catalog.py lines 28-38): mode starts as
`"fallback"` with no client. -/
def newCatalogService (docs : List ProductDoc) : CatalogService :=
  { _mode := "fallback", hasClient := false, _fallback_docs := docs }

/-- `CatalogService.initialize` (catalog.py lines 56-69).  `connected` is the
outcome of `_connect_with_retry`; index creation and seeding touch only the
remote store and are not part of the service state. -/
def CatalogService.initialize (svc : CatalogService) (connected : Bool) :
    CatalogService × Option String :=
  if connected then
    ({ svc with hasClient := true, _mode := "elasticsearch" }, none)
  else
    ({ svc with _mode := "fallback" },
     some ("Elasticsearch is unavailable; using local fallback catalog."))

/-- Outcome of the remote call inside `search`: a hit list, or a raised
exception rendered as its message text. -/
inductive RemoteOutcome
  | ok (hits : List EsHit)
  | raised (msg : String)
deriving DecidableEq, Repr

/-- `CatalogService.search` (catalog.py lines 79-86).  The body never assigns
any attribute, so the returned state is the input state. -/
def CatalogService.search (svc : CatalogService) (intent : QueryIntent)
    (remote : RemoteOutcome) :
    CatalogService × (List ProductResult × Option String) :=
  if svc._mode ≠ "elasticsearch" ∨ svc.hasClient = false then
    (svc, (_fallback_search svc._fallback_docs intent,
           some ("Results are from fallback data, not Elasticsearch.")))
  else
    match remote with
    | .ok hits => (svc, (_search_elasticsearch intent hits, none))
    | .raised msg =>
        (svc, (_fallback_search svc._fallback_docs intent,
               some ("Elasticsearch query failed (" ++ msg ++ "); using fallback data.")))

/-- Scoring formula exactly as the specification words it (§4.3), for
comparison with the source's `_recommendation_score`. -/
def recommendation_score_spec (raw_relevance top_relevance : ℚ) (doc : ProductDoc)
    (coverage : ℚ) : ℚ :=
  round4 (0.78 * (raw_relevance / max top_relevance 0.0001) + 0.15 * coverage +
    0.05 * min ((doc.quantity_available : ℚ) / 10000) 1 +
    0.02 * (1 / (1 + max doc.unit_price 0)))

/-- Strip only trailing `, . ? !` characters. -/
def pyStripTrailing (s : String) : String :=
  ⟨(s.data.reverse.dropWhile (· ∈ stripChars)).reverse⟩

/-- Significant tokens as the specification words them (§4.3): lowercase,
whitespace split, strip *trailing* punctuation, then drop tokens of length ≤ 2
or in the stop-word set.  For comparison with the source's
`significantTokens`, which tests the length of the *raw* token before
stripping and strips punctuation at both ends. -/
def significantTokensSpec (stopWords : List String) (query : String) : Finset String :=
  (((pySplit (pyLower query)).map pyStripTrailing).filter
      (fun t => 2 < t.length && !(decide (t ∈ stopWords)))).toFinset

/-- A document whose string fields are all empty — concrete input material. -/
def emptyDoc : ProductDoc :=
  { id := "", manufacturer := "", manufacturer_part_number := "", name := "",
    description := "", category := "", unit_price := 0, quantity_available := 0,
    tags := [], use_cases := [], key_specs := [], product_url := "", datasheet_url := "" }

/-- Concrete document whose haystack contains the substring `so`. -/
def senDoc : ProductDoc := { emptyDoc with manufacturer := "Sensor" }

/-- Concrete catalog document for witnesses. -/
def demoDoc : ProductDoc :=
  { id := "mock-01-0001", manufacturer := "Acme", manufacturer_part_number := "ACME-010001-42",
    name := "Rugged Sensor Module", description := "Rugged sensor module for robotics.",
    category := "Sensors", unit_price := 3, quantity_available := 500,
    tags := ["sensor"], use_cases := ["robotics"],
    key_specs := [("series", "X1"), ("package", "SMD")],
    product_url := "https://example.com/p", datasheet_url := "https://example.com/d" }

/-- Concrete intent for witnesses. -/
def demoIntent : QueryIntent :=
  { keywords := "rugged sensor", limit := 5, in_stock_only := true,
    min_quantity := some 10, max_unit_price := some 100,
    sort_preference := SortPreference.relevance }

/-- A service whose startup established the remote connection. -/
def esService : CatalogService :=
  { _mode := "elasticsearch", hasClient := true, _fallback_docs := [demoDoc] }

/-- A concrete remote hit on `demoDoc`. -/
def demoHit : EsHit := { score := some 7, source := demoDoc }

/-! ## Helper lemmas (shared; not tied to a single claim) -/

theorem scoreDescLe_trans (a b c : ProductResult) (hab : scoreDescLe a b = true)
    (hbc : scoreDescLe b c = true) : scoreDescLe a c = true := by
  simp only [scoreDescLe, decide_eq_true_eq] at *
  exact le_trans hbc hab

theorem scoreDescLe_total (a b : ProductResult) : (scoreDescLe a b || scoreDescLe b a) = true := by
  simp only [scoreDescLe, Bool.or_eq_true, decide_eq_true_eq]
  exact le_total b.recommendation_score a.recommendation_score

theorem sorted_mergeSort_score (l : List ProductResult) :
    List.Sorted (fun a b : ProductResult => b.recommendation_score ≤ a.recommendation_score)
      (l.mergeSort scoreDescLe) := by
  have h := List.sorted_mergeSort scoreDescLe_trans scoreDescLe_total l
  exact h.imp (fun hab => by simpa [scoreDescLe, decide_eq_true_eq] using hab)

theorem isInfix_append_left {n c : List Char} (x : List Char) (h : n <:+: c) :
    n <:+: x ++ c := by
  obtain ⟨s, t, hst⟩ := h
  exact ⟨x ++ s, t, by rw [← hst]; simp [List.append_assoc]⟩

theorem keyword_coverage_nonneg (q : String) (d : ProductDoc) :
    0 ≤ _keyword_coverage q d := by
  by_cases h : significantTokens coverageStopWords q = ∅
  · simp [_keyword_coverage, h]
  · simp only [_keyword_coverage, h, if_false]
    positivity

theorem keyword_coverage_le_one (q : String) (d : ProductDoc) :
    _keyword_coverage q d ≤ 1 := by
  by_cases h : significantTokens coverageStopWords q = ∅
  · simp [_keyword_coverage, h]
  · simp only [_keyword_coverage, h, if_false]
    have hpos : 0 < ((significantTokens coverageStopWords q).card : ℚ) := by
      have := Finset.card_pos.mpr (Finset.nonempty_iff_ne_empty.mpr h)
      exact_mod_cast this
    rw [div_le_one hpos]
    exact_mod_cast Finset.card_filter_le _ _

theorem round4_mono {x y : ℚ} (h : x ≤ y) : round4 x ≤ round4 y := by
  unfold round4
  have hr : round (x * 10000) ≤ round (y * 10000) := by
    rw [round_eq, round_eq]
    exact Int.floor_mono (by linarith)
  have : ((round (x * 10000) : ℤ) : ℚ) ≤ ((round (y * 10000) : ℤ) : ℚ) := by exact_mod_cast hr
  linarith

theorem round4_low : round4 0.78 = 0.78 := by
  unfold round4
  norm_num [round_eq]

theorem round4_one : round4 1 = 1 := by
  unfold round4
  norm_num [round_eq]

theorem recommendation_score_unit_bounds (doc : ProductDoc) (cov : ℚ)
    (hq : 0 ≤ doc.quantity_available) (hc0 : 0 ≤ cov) (hc1 : cov ≤ 1) :
    (0.78 : ℚ) ≤ _recommendation_score 1 1 doc cov ∧ _recommendation_score 1 1 doc cov ≤ 1 := by
  unfold _recommendation_score
  have hrel : (1 : ℚ) / max 1 0.0001 = 1 := by norm_num
  have hq' : (0 : ℚ) ≤ (doc.quantity_available : ℚ) := by exact_mod_cast hq
  have hs0 : (0 : ℚ) ≤ min ((doc.quantity_available : ℚ) / 10000) 1 :=
    le_min (by positivity) zero_le_one
  have hs1 : min ((doc.quantity_available : ℚ) / 10000) 1 ≤ 1 := min_le_right _ _
  have hpden : (0 : ℚ) < 1 + max doc.unit_price 0 := by
    have : (0 : ℚ) ≤ max doc.unit_price 0 := le_max_right _ _
    linarith
  have hp0 : (0 : ℚ) ≤ 1 / (1 + max doc.unit_price 0) := by positivity
  have hp1 : 1 / (1 + max doc.unit_price 0) ≤ 1 := by
    rw [div_le_one hpden]
    have : (0 : ℚ) ≤ max doc.unit_price 0 := le_max_right _ _
    linarith
  rw [hrel]
  constructor
  · calc (0.78 : ℚ) = round4 0.78 := round4_low.symm
      _ ≤ _ := round4_mono (by linarith)
  · calc round4 (0.78 * 1 + 0.15 * cov + 0.05 * min ((doc.quantity_available : ℚ) / 10000) 1 +
          0.02 * (1 / (1 + max doc.unit_price 0))) ≤ round4 1 := round4_mono (by linarith)
      _ = 1 := round4_one

/-! ## Claim C2 -/

/-- C2 counterexample: after a successful `initialize`, `mode` reports the
string `"elasticsearch"`, which is neither `"fallback"` nor `"remote"` —
so `mode()` is not restricted to the two strings the claim names. -/
theorem initialize_mode_not_in_claimed_pair :
    ( CatalogService.initialize (newCatalogService []) true).1.mode = "elasticsearch" ∧
    ¬(( CatalogService.initialize (newCatalogService []) true).1.mode = "fallback" ∨
      ( CatalogService.initialize (newCatalogService []) true).1.mode = "remote") := by
  decide

/-- C2 (amended): for every service state and connection outcome, the value
reported by `mode()` after `initialize` is one of the two strings
`"fallback"` and `"elasticsearch"` (the code's spelling of remote mode). -/
theorem mode_after_initialize_cases (svc : CatalogService) (connected : Bool) :
    ( CatalogService.initialize svc connected).1.mode = "fallback" ∨
    ( CatalogService.initialize svc connected).1.mode = "elasticsearch" := by
  cases connected
  · exact Or.inl rfl
  · exact Or.inr rfl

/-! ## Claim C5 -/

/-- C5: the composite recommendation score computed by the source's
`_recommendation_score` equals, for every raw score, top score, document and
coverage value, the specification's formula
`round(0.78·(raw/max(top, 0.0001)) + 0.15·coverage +
0.05·min(quantity/10000, 1) + 0.02·(1/(1+max(price, 0))), 4)`. -/
theorem recommendation_score_matches_spec_formula (raw top : ℚ) (doc : ProductDoc)
    (cov : ℚ) : _recommendation_score raw top doc cov = recommendation_score_spec raw top doc cov :=
  rfl

/-! ## Claim C8 -/

/-- C8: in remote mode, when the remote engine returns zero hits, `search`
returns the empty list with no warning, leaving the service untouched; since
every fallback invocation attaches a warning string, the absent warning also
shows the fallback engine was not consulted. -/
theorem search_zero_hits_returns_empty (svc : CatalogService) (intent : QueryIntent)
    (hmode : svc.mode = "elasticsearch") (hcli : svc.hasClient = true) :
    svc.search intent (RemoteOutcome.ok []) = (svc, ([], none)) := by
  have hm : svc._mode = "elasticsearch" := hmode
  unfold CatalogService.search
  rw [if_neg]
  · simp [_search_elasticsearch]
  · rw [hm, hcli]
    simp

/-- C8 witness at a concrete remote-mode service and intent. -/
theorem search_zero_hits_returns_empty_witness :
    esService.search demoIntent (RemoteOutcome.ok []) = (esService, ([], none)) :=
  search_zero_hits_returns_empty esService demoIntent rfl rfl

/-! ## Claim C9 -/

/-- C9: the spec blob is a pure function of the specification map — any two
documents with the same `key_specs` map produce the same blob (hence
recomputation on an unchanged map is byte-identical), and the seeding
script's `spec_blob` computes exactly the same string as the service's
`_spec_blob_from_doc`. -/
theorem spec_blob_pure_function (d1 d2 : ProductDoc) (h : d1.key_specs = d2.key_specs) :
    _spec_blob_from_doc d1 = _spec_blob_from_doc d2 ∧
    spec_blob d1 = _spec_blob_from_doc d1 := by
  refine ⟨?_, rfl⟩
  unfold _spec_blob_from_doc
  rw [h]

/-- C9 witness: two concrete documents sharing a specification map. -/
theorem spec_blob_pure_function_witness :
    _spec_blob_from_doc demoDoc = _spec_blob_from_doc { demoDoc with name := "Other" } ∧
    spec_blob demoDoc = _spec_blob_from_doc demoDoc :=
  spec_blob_pure_function demoDoc { demoDoc with name := "Other" } rfl

/-! ## Claim C1 -/

/-- C1: in remote mode, when the remote search raises, `search` does not
propagate the exception: it returns the fallback engine's results for the
intent together with a warning string containing the word `fallback`, and
the service state — in particular `mode()` — is unchanged. -/
theorem search_remote_failure_returns_fallback (svc : CatalogService)
    (intent : QueryIntent) (msg : String)
    (hmode : svc.mode = "elasticsearch") (hcli : svc.hasClient = true) :
    (svc.search intent (RemoteOutcome.raised msg)).2.1 =
      _fallback_search svc._fallback_docs intent ∧
    (∃ w, (svc.search intent (RemoteOutcome.raised msg)).2.2 = some w ∧
      pySubstr "fallback" w = true) ∧
    (svc.search intent (RemoteOutcome.raised msg)).1.mode = svc.mode := by
  have hm : svc._mode = "elasticsearch" := hmode
  have hsearch : svc.search intent (RemoteOutcome.raised msg) =
      (svc, (_fallback_search svc._fallback_docs intent,
        some ("Elasticsearch query failed (" ++ msg ++ "); using fallback data."))) := by
    unfold CatalogService.search
    rw [if_neg]
    rw [hm, hcli]
    simp
  refine ⟨by rw [hsearch], ⟨"Elasticsearch query failed (" ++ msg ++ "); using fallback data.",
    by rw [hsearch], ?_⟩, by rw [hsearch]⟩
  have hsuffix : ("fallback").data <:+: ("); using fallback data.").data := by decide
  have hdata : ("Elasticsearch query failed (" ++ msg ++ "); using fallback data.").data =
      ("Elasticsearch query failed (").data ++
        (msg.data ++ ("); using fallback data.").data) := by
    rw [String.data_append, String.data_append, List.append_assoc]
  unfold pySubstr
  rw [hdata]
  exact decide_eq_true
    (isInfix_append_left _ (isInfix_append_left _ hsuffix))

/-- C1 witness at a concrete remote-mode service, intent and exception text. -/
theorem search_remote_failure_returns_fallback_witness :
    (esService.search demoIntent (RemoteOutcome.raised "boom")).2.1 =
      _fallback_search esService._fallback_docs demoIntent ∧
    (∃ w, (esService.search demoIntent (RemoteOutcome.raised "boom")).2.2 = some w ∧
      pySubstr "fallback" w = true) ∧
    (esService.search demoIntent (RemoteOutcome.raised "boom")).1.mode = esService.mode :=
  search_remote_failure_returns_fallback esService demoIntent "boom" rfl rfl

/-! ## Claim C3 -/

/-- C3 counterexample: on the query `"cheapest"` the fallback tokenizer and
the coverage tokenizer disagree — `"cheapest"` is a stop word only in the
fallback engine's list, so the two significant-token sets differ and the two
stop-word sets are not the same. -/
theorem tokenizers_differ_counterexample :
    significantTokens fallbackStopWords "cheapest" ≠
      significantTokens coverageStopWords "cheapest" ∧
    significantTokens fallbackStopWords "cheapest" = ∅ ∧
    significantTokens coverageStopWords "cheapest" = {"cheapest"} := by
  refine ⟨by decide, by decide, by decide⟩

/-- C3 (amended): the two tokenizers share the punctuation and length
filtering, but their stop-word lists differ in exactly `cheapest` and
`in-stock` (fallback only) versus `in` (coverage only); for every query in
which no whitespace token strips to one of those three words, the two
significant-token sets are identical. -/
theorem tokenizers_agree_off_divergent_stopwords (q : String)
    (h : ∀ t ∈ pySplit (pyLower q),
      pyStrip t ≠ "cheapest" ∧ pyStrip t ≠ "in-stock" ∧ pyStrip t ≠ "in") :
    significantTokens fallbackStopWords q = significantTokens coverageStopWords q := by
  unfold significantTokens
  have hf : List.filter (fun t => 2 < t.length && !(decide (pyStrip t ∈ fallbackStopWords)))
        (pySplit (pyLower q)) =
      List.filter (fun t => 2 < t.length && !(decide (pyStrip t ∈ coverageStopWords)))
        (pySplit (pyLower q)) := by
    apply List.filter_congr
    intro t ht
    obtain ⟨h1, h2, h3⟩ := h t ht
    have hiff : (pyStrip t ∈ fallbackStopWords) ↔ (pyStrip t ∈ coverageStopWords) := by
      simp only [fallbackStopWords, coverageStopWords, List.mem_cons, List.not_mem_nil, or_false]
      tauto
    rw [decide_eq_decide.mpr hiff]
  rw [hf]

/-- C3 witness: a query free of the three divergent stop words, on which the
two tokenizers provably agree. -/
theorem tokenizers_agree_off_divergent_stopwords_witness :
    significantTokens fallbackStopWords "usb cable" =
      significantTokens coverageStopWords "usb cable" :=
  tokenizers_agree_off_divergent_stopwords "usb cable" (by decide)

/-! ## Claim C7 -/

/-- C7 counterexample: on the query `"so,"` no significant token remains
under the claim's tokenization (strip trailing punctuation, then drop tokens
of length ≤ 2), so the claim demands coverage exactly 0.0 — but the code
tests the length of the raw token `"so,"` (length 3 > 2) before stripping,
keeps the token `"so"`, finds it inside `"sensor"`, and returns 1.0. -/
theorem keyword_coverage_zero_clause_counterexample :
    significantTokensSpec coverageStopWords "so," = ∅ ∧
    _keyword_coverage "so," senDoc = 1 := by
  refine ⟨by decide, ?_⟩
  have hne : ¬(significantTokens coverageStopWords "so," = ∅) := by decide
  simp only [_keyword_coverage, hne, if_false]
  rw [show (Finset.filter (fun t => pySubstr t (searchHaystack senDoc) = true)
        (significantTokens coverageStopWords "so,")).card = 1 from by decide,
    show (significantTokens coverageStopWords "so,").card = 1 from by decide]
  norm_num

/-- C7 (amended): with significant tokens as the code computes them — the
both-ends-stripped forms of raw whitespace tokens whose *raw* length exceeds
2 and whose stripped form is not a stop word — `_keyword_coverage` returns
exactly 0.0 when no significant token exists, and otherwise the number of
significant tokens occurring as substrings of the lowercased concatenation of
manufacturer, part number, name, description, tags and use-cases, divided by
the number of significant tokens: a value always in [0.0, 1.0]. -/
theorem keyword_coverage_correct (q : String) (d : ProductDoc) :
    (significantTokens coverageStopWords q = ∅ → _keyword_coverage q d = 0) ∧
    (significantTokens coverageStopWords q ≠ ∅ →
      _keyword_coverage q d =
        (((significantTokens coverageStopWords q).filter
            (fun t => pySubstr t (searchHaystack d) = true)).card : ℚ) /
          ((significantTokens coverageStopWords q).card : ℚ) ∧
      0 ≤ _keyword_coverage q d ∧ _keyword_coverage q d ≤ 1) := by
  constructor
  · intro h
    simp [_keyword_coverage, h]
  · intro h
    exact ⟨by simp only [_keyword_coverage, h, if_false],
      keyword_coverage_nonneg q d, keyword_coverage_le_one q d⟩

/-- C7 witness: a concrete query with significant tokens, whose coverage of
`demoDoc` the theorem places in [0, 1]. -/
theorem keyword_coverage_correct_witness :
    significantTokens coverageStopWords "rugged sensor" ≠ ∅ ∧
    (0 ≤ _keyword_coverage "rugged sensor" demoDoc ∧
      _keyword_coverage "rugged sensor" demoDoc ≤ 1) :=
  ⟨by decide, ((keyword_coverage_correct "rugged sensor" demoDoc).2 (by decide)).2⟩

/-! ## Claim C4 -/

theorem le_pyMaxList (x : ℚ) (xs : List ℚ) : x ≤ pyMaxList x xs := by
  induction xs generalizing x with
  | nil => exact le_refl x
  | cons a t ih => exact le_trans (le_max_left x a) (ih (max x a))

theorem mem_le_pyMaxList {y : ℚ} {xs : List ℚ} (x : ℚ) (hy : y ∈ xs) :
    y ≤ pyMaxList x xs := by
  induction xs generalizing x with
  | nil => cases hy
  | cons a t ih =>
    rcases List.mem_cons.mp hy with rfl | h
    · exact le_trans (le_max_right x y) (le_pyMaxList (max x y) t)
    · exact ih (max x a) h

theorem pyMaxList_attained (x : ℚ) (xs : List ℚ) :
    pyMaxList x xs = x ∨ pyMaxList x xs ∈ xs := by
  induction xs generalizing x with
  | nil => exact Or.inl rfl
  | cons a t ih =>
    have hstep : pyMaxList x (a :: t) = pyMaxList (max x a) t := rfl
    rcases ih (max x a) with h | h
    · rcases max_choice x a with hx | hx
      · exact Or.inl (by rw [hstep, h, hx])
      · exact Or.inr (by rw [hstep, h, hx]; exact List.mem_cons_self a t)
    · exact Or.inr (List.mem_cons_of_mem a (by rw [hstep]; exact h))

/-- C4: on any nonempty hit list, the remote search path returns a list
sorted by `recommendation_score` descending; the normalizer it uses is the
maximum (null-defaulted) engine score over the returned hits (it bounds every
hit's score and is attained by one of them); every returned result is a hit
mapped through the scoring model with that normalizer; and the output does
not depend on the intent's `sort_preference` (or anything in the intent
besides `keywords`), so the composite order governs presentation for every
requested sort. -/
theorem remote_search_sorted_by_composite (intent : QueryIntent) (hits : List EsHit)
    (hne : hits ≠ []) :
    List.Sorted (fun a b : ProductResult => b.recommendation_score ≤ a.recommendation_score)
      (_search_elasticsearch intent hits) ∧
    (∀ h ∈ hits, pyOr h.score 1 ≤ esTopScore hits) ∧
    (∃ h ∈ hits, esTopScore hits = pyOr h.score 1) ∧
    (∀ r ∈ _search_elasticsearch intent hits,
      ∃ h ∈ hits, r = mapEsHit intent (esTopScore hits) h) ∧
    (∀ intent2 : QueryIntent, intent2.keywords = intent.keywords →
      _search_elasticsearch intent2 hits = _search_elasticsearch intent hits) := by
  obtain ⟨h0, t0, rfl⟩ := List.exists_cons_of_ne_nil hne
  have hunfold : _search_elasticsearch intent (h0 :: t0) =
      ((h0 :: t0).map (mapEsHit intent (esTopScore (h0 :: t0)))).mergeSort scoreDescLe := by
    unfold _search_elasticsearch
    rw [if_neg hne]
  have htop : esTopScore (h0 :: t0) =
      pyMaxList (pyOr h0.score 1) (t0.map (fun x => pyOr x.score 1)) := rfl
  refine ⟨?_, ?_, ?_, ?_, ?_⟩
  · rw [hunfold]
    exact sorted_mergeSort_score _
  · intro h hh
    rcases List.mem_cons.mp hh with rfl | hmem
    · rw [htop]
      exact le_pyMaxList _ _
    · rw [htop]
      exact mem_le_pyMaxList _ (List.mem_map_of_mem (fun x => pyOr x.score 1) hmem)
  · rcases pyMaxList_attained (pyOr h0.score 1) (t0.map (fun x => pyOr x.score 1)) with h | h
    · exact ⟨h0, List.mem_cons_self h0 t0, by rw [htop, h]⟩
    · obtain ⟨hit, hhit, heq⟩ := List.mem_map.mp h
      exact ⟨hit, List.mem_cons_of_mem h0 hhit, by rw [htop, ← heq]⟩
  · intro r hr
    rw [hunfold] at hr
    obtain ⟨hit, hhit, hEq⟩ := List.mem_map.mp (List.mem_mergeSort.mp hr)
    exact ⟨hit, hhit, hEq.symm⟩
  · intro intent2 hkw
    unfold _search_elasticsearch
    rw [if_neg hne, if_neg hne]
    have : (h0 :: t0).map (mapEsHit intent2 (esTopScore (h0 :: t0))) =
        (h0 :: t0).map (mapEsHit intent (esTopScore (h0 :: t0))) := by
      apply List.map_congr_left
      intro hit _
      unfold mapEsHit
      rw [hkw]
    rw [this]

/-- C4 witness: a concrete one-hit remote response. -/
theorem remote_search_sorted_by_composite_witness :
    List.Sorted (fun a b : ProductResult => b.recommendation_score ≤ a.recommendation_score)
      (_search_elasticsearch demoIntent [demoHit]) ∧
    (∃ h ∈ [demoHit], esTopScore [demoHit] = pyOr h.score 1) :=
  ⟨(remote_search_sorted_by_composite demoIntent [demoHit] (by simp)).1,
   (remote_search_sorted_by_composite demoIntent [demoHit] (by simp)).2.2.1⟩

/-! ## Claims C6 and C10: fallback search structure -/

theorem fallback_search_eq (docs : List ProductDoc) (intent : QueryIntent) :
    _fallback_search docs intent =
      (((docs.filter
            (fallbackKeep intent (significantTokens fallbackStopWords intent.keywords))).map
          (fallbackResult intent)).mergeSort scoreDescLe).take intent.limit := rfl

theorem fallbackKeep_spec {intent : QueryIntent} {qtoks : Finset String} {doc : ProductDoc}
    (h : fallbackKeep intent qtoks doc = true) :
    (qtoks ≠ ∅ → 0 < fallbackMatchScore qtoks doc) ∧
    (intent.in_stock_only = true → 0 < doc.quantity_available) ∧
    (∀ m, intent.min_quantity = some m → m ≤ doc.quantity_available) ∧
    (∀ p, intent.max_unit_price = some p → doc.unit_price ≤ p) := by
  unfold fallbackKeep at h
  simp only [Bool.and_eq_true, Bool.not_eq_true'] at h
  obtain ⟨⟨⟨h1, h2⟩, h3⟩, h4⟩ := h
  refine ⟨?_, ?_, ?_, ?_⟩
  · intro hne
    rcases Bool.and_eq_false_iff.mp h1 with hc | hc
    · exact absurd hne (by simpa using hc)
    · have : fallbackMatchScore qtoks doc ≠ 0 := by simpa using hc
      exact Nat.pos_of_ne_zero this
  · intro hstock
    rw [hstock, Bool.true_and] at h2
    have : ¬(doc.quantity_available ≤ 0) := by simpa using h2
    linarith
  · intro m hm
    rw [hm] at h3
    have : ¬(doc.quantity_available < m) := by simpa using h3
    linarith
  · intro p hp
    rw [hp] at h4
    have : ¬(p < doc.unit_price) := by simpa using h4
    linarith

theorem mem_fallback_search_decomp {docs : List ProductDoc} {intent : QueryIntent}
    {r : ProductResult} (hr : r ∈ _fallback_search docs intent) :
    ∃ doc ∈ docs,
      fallbackKeep intent (significantTokens fallbackStopWords intent.keywords) doc = true ∧
      fallbackResult intent doc = r := by
  rw [fallback_search_eq] at hr
  have hr2 := (List.take_sublist _ _).subset hr
  obtain ⟨doc, hdocf, hEq⟩ := List.mem_map.mp (List.mem_mergeSort.mp hr2)
  obtain ⟨hdocs, hkeep⟩ := List.mem_filter.mp hdocf
  exact ⟨doc, hdocs, hkeep, hEq⟩

/-! ## Claim C6 -/

/-- C6: every result of the fallback search satisfies the intent's
constraints (positive stock under `in_stock_only`, the minimum quantity and
maximum price when given), arises from a catalog document that matches at
least one significant token whenever significant tokens exist, and the list
is sorted by `recommendation_score` descending with length at most the
intent's limit. -/
theorem fallback_search_correct (docs : List ProductDoc) (intent : QueryIntent) :
    (_fallback_search docs intent).length ≤ intent.limit ∧
    List.Sorted (fun a b : ProductResult => b.recommendation_score ≤ a.recommendation_score)
      (_fallback_search docs intent) ∧
    ∀ r ∈ _fallback_search docs intent,
      (intent.in_stock_only = true → 0 < r.quantity_available) ∧
      (∀ m, intent.min_quantity = some m → m ≤ r.quantity_available) ∧
      (∀ p, intent.max_unit_price = some p → r.unit_price ≤ p) ∧
      ∃ doc ∈ docs, r = fallbackResult intent doc ∧
        (significantTokens fallbackStopWords intent.keywords ≠ ∅ →
          0 < fallbackMatchScore (significantTokens fallbackStopWords intent.keywords) doc) := by
  refine ⟨?_, ?_, ?_⟩
  · rw [fallback_search_eq, List.length_take]
    exact min_le_left _ _
  · rw [fallback_search_eq]
    exact List.Pairwise.sublist (List.take_sublist _ _) (sorted_mergeSort_score _)
  · intro r hr
    obtain ⟨doc, hdocs, hkeep, hEq⟩ := mem_fallback_search_decomp hr
    obtain ⟨hk1, hk2, hk3, hk4⟩ := fallbackKeep_spec hkeep
    have hqty : r.quantity_available = doc.quantity_available := by
      rw [← hEq]; rfl
    have hprice : r.unit_price = doc.unit_price := by
      rw [← hEq]; rfl
    refine ⟨?_, ?_, ?_, doc, hdocs, hEq.symm, hk1⟩
    · intro hstock
      rw [hqty]
      exact hk2 hstock
    · intro m hm
      rw [hqty]
      exact hk3 m hm
    · intro p hp
      rw [hprice]
      exact hk4 p hp

/-- C6 witness: concrete catalog and intent, with the binder-free conjuncts
of the theorem's conclusion. -/
theorem fallback_search_correct_witness :
    (_fallback_search [demoDoc] demoIntent).length ≤ demoIntent.limit ∧
    List.Sorted (fun a b : ProductResult => b.recommendation_score ≤ a.recommendation_score)
      (_fallback_search [demoDoc] demoIntent) :=
  ⟨(fallback_search_correct [demoDoc] demoIntent).1,
   (fallback_search_correct [demoDoc] demoIntent).2.1⟩

/-! ## Claim C10 -/

/-- C10: because the fallback path calls the scoring model with
`raw = top = 1.0`, the relevance term is exactly 1 and contributes 0.78,
while coverage, stock and price add at most 0.15 + 0.05 + 0.02; hence, over
any catalog of documents with non-negative stock (as all seed documents
have), every fallback result's `recommendation_score` lies in [0.78, 1.0]. -/
theorem fallback_scores_in_range (docs : List ProductDoc) (intent : QueryIntent)
    (hq : ∀ d ∈ docs, 0 ≤ d.quantity_available) :
    ∀ r ∈ _fallback_search docs intent,
      (0.78 : ℚ) ≤ r.recommendation_score ∧ r.recommendation_score ≤ 1 := by
  intro r hr
  obtain ⟨doc, hdocs, _, hEq⟩ := mem_fallback_search_decomp hr
  have hscore : r.recommendation_score =
      _recommendation_score 1 1 doc (_keyword_coverage intent.keywords doc) := by
    rw [← hEq]; rfl
  rw [hscore]
  exact recommendation_score_unit_bounds doc _ (hq doc hdocs)
    (keyword_coverage_nonneg _ _) (keyword_coverage_le_one _ _)

theorem demo_fallback_eval :
    _fallback_search [demoDoc] demoIntent = [fallbackResult demoIntent demoDoc] := by
  rw [fallback_search_eq]
  rw [show List.filter
        (fallbackKeep demoIntent (significantTokens fallbackStopWords demoIntent.keywords))
        [demoDoc] = [demoDoc] from by decide]
  rw [List.map_singleton, List.mergeSort_singleton]
  rfl

/-- C10 witness: the concrete fallback result for `demoDoc`, whose score the
theorem bounds after the non-negative-stock hypothesis is discharged. -/
theorem fallback_scores_in_range_witness :
    (0.78 : ℚ) ≤ (fallbackResult demoIntent demoDoc).recommendation_score ∧
    (fallbackResult demoIntent demoDoc).recommendation_score ≤ 1 :=
  fallback_scores_in_range [demoDoc] demoIntent (by decide)
    (fallbackResult demoIntent demoDoc) (by rw [demo_fallback_eval]; exact List.mem_singleton.mpr rfl)
